import Mathlib

/-!
Shallow embedding of the minecraft-ondemand CDK application:
the configuration resolver (cdk/lib/config.ts), the application
entrypoint (cdk/bin, stack declaration and validation), and the
minecraft server stack synthesis (cdk/lib/minecraft-stack.ts):
the IAM policies and role attachments, the Fargate service, the
SNS topic, and the watchdog container environment.  The watchdog
process itself ships as a separate container image whose code is
not part of src; its state machine is modelled from the spec.
-/

namespace MinecraftOnDemand

/-- A process environment: maps a variable name to its value; `none`
models a JS `undefined` variable. -/
def Env : Type := String → Option String

/-- JS runtime primitives used by the config resolver but not defined in
the repository sources (JSON.parse restricted to string-object results,
unary plus number conversion, and the stringAsBoolean utility). They are
abstracted as parameters; theorems hold for every implementation, except
where a hypothesis states a standard fact about JSON.parse. -/
structure JsPrims where
  parseJson : String → Option (List (String × String))
  toNumber : String → Int
  stringAsBoolean : Option String → Bool

/-- Embeds the JS idiom `process.env.K || d`: both an undefined variable
and an empty string are falsy and fall back to the default. -/
def envOr (env : Env) (k d : String) : String :=
  match env k with
  | none => d
  | some v => if v = "" then d else v

/-- Embeds JS template interpolation of a possibly-undefined variable:
an undefined value prints as the string undefined. -/
def jsTemplateVar (o : Option String) : String :=
  match o with
  | none => "undefined"
  | some s => s

/-- Embeds the JS idiom `+(process.env.K || d)` where d is a numeric
literal: an unset or empty variable yields d, otherwise the string is
converted to a number. -/
def jsPlusOr (toNumber : String → Int) (o : Option String) (d : Int) : Int :=
  match o with
  | none => d
  | some s => if s = "" then d else toNumber s

/-- Embeds the JS object spread of two string records: keys of the
second record override keys of the first. -/
def jsMerge (a b : List (String × String)) : List (String × String) :=
  a.filter (fun kv => b.all (fun kv2 => kv2.1 ≠ kv.1)) ++ b

/-- The Twilio block of StackConfig (cdk/lib/config.ts). -/
structure TwilioConfig where
  phoneFrom : String
  phoneTo : String
  accountId : String
  authCode : String

/-- The resolved stack configuration (cdk/lib/types.ts / config.ts). -/
structure StackConfig where
  domainName : String
  subdomainPart : String
  serverRegion : String
  minecraftEdition : String
  shutdownMinutes : String
  startupMinutes : String
  useFargateSpot : Bool
  taskCpu : Int
  taskMemory : Int
  vpcId : String
  minecraftImageEnv : List (String × String)
  snsEmailAddress : String
  twilio : TwilioConfig
  clusterName : String
  serviceName : String
  serverContainerName : String
  ecsVolumeName : String
  debug : Bool

/-- resolveMinecraftEnvVars (cdk/lib/config.ts): parses the JSON env
string (defaulting to the empty string when the variable is undefined)
and spreads the result over the defaults record EULA=TRUE; a parse
failure becomes the fixed error. -/
def resolveMinecraftEnvVars (parseJson : String → Option (List (String × String)))
    (json : String) : Except String (List (String × String)) :=
  match parseJson json with
  | some o => Except.ok (jsMerge [("EULA", "TRUE")] o)
  | none => Except.error "Unable to resolve .env value for MINECRAFT_IMAGE_ENV_VARS_JSON."

/-- resolveConfig (cdk/lib/config.ts): builds the StackConfig from the
process environment; the only field whose resolution can throw is
minecraftImageEnv. -/
def resolveConfig (p : JsPrims) (env : Env) : Except String StackConfig :=
  match resolveMinecraftEnvVars p.parseJson ((env "MINECRAFT_IMAGE_ENV_VARS_JSON").getD "") with
  | Except.error e => Except.error e
  | Except.ok mie => Except.ok {
      domainName := envOr env "DOMAIN_NAME" ""
      subdomainPart := envOr env "SUBDOMAIN_PART" ""
      serverRegion := envOr env "SERVER_REGION" ""
      minecraftEdition := if env "MINECRAFT_EDITION" = some "bedrock" then "bedrock" else "java"
      shutdownMinutes := envOr env "SHUTDOWN_MINUTES" "30"
      startupMinutes := envOr env "STARTUP_MINUTES" "10"
      useFargateSpot := p.stringAsBoolean (env "USE_FARGATE_SPOT") || true
      taskCpu := jsPlusOr p.toNumber (env "TASK_CPU") 8192
      taskMemory := jsPlusOr p.toNumber (env "TASK_MEMORY") 2048
      vpcId := envOr env "VPC_ID" ""
      minecraftImageEnv := mie
      snsEmailAddress := envOr env "SNS_EMAIL_ADDRESS" ""
      twilio := {
        phoneFrom := envOr env "TWILIO_PHONE_FROM" ""
        phoneTo := envOr env "TWILIO_PHONE_TO" ""
        accountId := envOr env "TWILIO_ACCOUNT_ID" ""
        authCode := envOr env "TWILIO_AUTH_CODE" "" }
      clusterName := envOr env "CLUSTER_NAME" ("minecraft-server-" ++ jsTemplateVar (env "SUBDOMAINPART"))
      serviceName := envOr env "SERVICE_NAME" "minecraft-server"
      serverContainerName := envOr env "SERVER_CONTAINER_NAME" "minecraft-server"
      ecsVolumeName := envOr env "ECS_VOLUME_NAME" ("minecraft-server-" ++ jsTemplateVar (env "SUBDOMAINPART") ++ "-data")
      debug := p.stringAsBoolean (env "DEBUG") || false }

/-- Extracts the minecraftImageEnv field from a resolver result; none
when the resolver threw. -/
def minecraftImageEnvOf : Except String StackConfig → Option (List (String × String))
  | Except.ok c => some c.minecraftImageEnv
  | Except.error _ => none

/-- The three validation checks at the application entrypoint (cdk/bin):
each one tests the falsiness of config.domainName before throwing its
message. -/
def appValidate (config : StackConfig) : Except String Unit :=
  if config.domainName = "" then
    Except.error "Missing required `DOMAIN_NAME` in .env file, please specify domain name"
  else if config.domainName = "" then
    Except.error "Missing required `SUBDOMAIN_PART` in .env file, please specify subdomain name."
  else if config.domainName = "" then
    Except.error "Missing required `SERVER_REGION` in .env file, example: us-east-1."
  else Except.ok ()

/-- Modelled from the spec: constants.ts is not under src. The companion
domain stack must reside in the N. Virginia region per the source comment
in the entrypoint (Route 53 and CloudWatch must invoke the Lambda there). -/
def DOMAIN_STACK_REGION : String := "us-east-1"

/-- A CDK stack declaration: its construct id and target region. -/
structure StackDecl where
  stackId : String
  region : String

/-- The two stacks declared by the application entrypoint and the
dependency edges between them (dependent stack first). -/
structure CdkApp where
  domainStack : StackDecl
  minecraftStack : StackDecl
  dependencies : List (String × String)

/-- The application entrypoint (cdk/bin): declares the domain stack in
the fixed region, the minecraft server stack in the configured server
region, and makes the server stack depend on the domain stack. -/
def mkCdkApp (config : StackConfig) : CdkApp :=
  { domainStack := { stackId := "minecraft-domain-stack", region := DOMAIN_STACK_REGION }
    minecraftStack := { stackId := "minecraft-server-stack", region := config.serverRegion }
    dependencies := [("minecraft-server-stack", "minecraft-domain-stack")] }

/-- An IAM policy statement: its sid, allowed actions and resources
(all statements in this stack have ALLOW effect). -/
structure PolicyStatement where
  sid : String
  actions : List String
  resources : List String

/-- Deploy-time values that CDK resolves outside the source (resource
ARNs, the SSM-read hosted zone id, the SNS topic ARN token). -/
structure SynthTokens where
  fileSystemArn : String
  serviceArn : String
  taskArnPattern : String
  hostedZoneId : String
  snsTopicArnToken : String

/-- The synthesis result of MinecraftStack relevant to the claims:
service settings, task sizing, SNS provisioning, watchdog environment,
logging flags, the IAM policies by construct id, and which policy is
attached to which role. -/
structure MinecraftStackModel where
  clusterName : String
  desiredCount : Nat
  capacityProvider : String
  serviceName : String
  taskCpu : Int
  taskMemory : Int
  snsTopicCreated : Bool
  emailSubscriptionEndpoint : Option String
  snsTopicArn : String
  watchdogEnvironment : List (String × String)
  serverContainerLogging : Bool
  watchdogLogging : Bool
  policies : List (String × List PolicyStatement)
  rolePolicyAttachments : List (String × String)

/-- MinecraftStack constructor (cdk/lib/minecraft-stack.ts), embedded as
a pure synthesis function over the config and the deploy-time tokens. -/
def mkMinecraftStack (config : StackConfig) (tok : SynthTokens) : MinecraftStackModel :=
  let snsTopicArn := if config.snsEmailAddress = "" then "" else tok.snsTopicArnToken
  { clusterName := "minecraft-server-" ++ config.subdomainPart
    desiredCount := 0
    capacityProvider := if config.useFargateSpot then "FARGATE_SPOT" else "FARGATE"
    serviceName := "minecraft-server"
    taskCpu := config.taskCpu
    taskMemory := config.taskMemory
    snsTopicCreated := config.snsEmailAddress ≠ ""
    emailSubscriptionEndpoint :=
      if config.snsEmailAddress = "" then none else some config.snsEmailAddress
    snsTopicArn := snsTopicArn
    watchdogEnvironment := [
      ("CLUSTER", "minecraft-server-" ++ config.subdomainPart),
      ("SERVICE", "minecraft-server"),
      ("DNSZONE", tok.hostedZoneId),
      ("SERVERNAME", config.subdomainPart ++ "." ++ config.domainName),
      ("SNSTOPIC", snsTopicArn),
      ("TWILIOFROM", config.twilio.phoneFrom),
      ("TWILIOTO", config.twilio.phoneTo),
      ("TWILIOAID", config.twilio.accountId),
      ("TWILIOAUTH", config.twilio.authCode),
      ("STARTUPMIN", config.startupMinutes),
      ("SHUTDOWNMIN", config.shutdownMinutes)]
    serverContainerLogging := config.debug
    watchdogLogging := config.debug
    policies := [
      ("DataRWPolicy", [{
        sid := "AllowReadWriteOnEFS"
        actions := ["elasticfilesystem:ClientMount", "elasticfilesystem:ClientWrite",
          "elasticfilesystem:DescribeFileSystems"]
        resources := [tok.fileSystemArn] }]),
      ("ServiceControlPolicy", [
        { sid := "AllowAllOnServiceAndTask"
          actions := ["ecs:*"]
          resources := [tok.serviceArn, tok.taskArnPattern] },
        { sid := ""
          actions := ["ec2:DescribeNetworkInterfaces"]
          resources := ["*"] }]),
      ("IamRoute53Policy", [{
        sid := "AllowEditRecordSets"
        actions := ["route53:GetHostedZone", "route53:ChangeResourceRecordSets",
          "route53:ListResourceRecordSets"]
        resources := ["arn:aws:route53:::hostedzone/" ++ tok.hostedZoneId] }])]
    rolePolicyAttachments := [
      ("DataRWPolicy", "TaskRole"),
      ("ServiceControlPolicy", "TaskRole"),
      ("ServiceControlPolicy", "LauncherLambdaRole"),
      ("IamRoute53Policy", "TaskRole")] }

/-- All actions allowed by the named policy of the stack model. -/
def policyActions (m : MinecraftStackModel) (policyName : String) : List String :=
  match m.policies.lookup policyName with
  | some sts => (sts.map PolicyStatement.actions).flatten
  | none => []

/-- The C1 claim as stated: every policy attached to a role other than
the launcher lambda role lacks the record-set change action. -/
def dnsMutationOnlyByLauncher (m : MinecraftStackModel) : Prop :=
  ∀ pr ∈ m.rolePolicyAttachments, pr.2 ≠ "LauncherLambdaRole" →
    "route53:ChangeResourceRecordSets" ∉ policyActions m pr.1

/-- Modelled from the spec: the watchdog state machine (section 4.3).
The watchdog container image (minecraft-ecsfargate-watchdog) is not
under src; the states are WAITING_FOR_PLAYERS, ACTIVE, IDLE_COUNTING
and SHUTTING_DOWN. -/
inductive WatchdogState where
  | waitingForPlayers
  | active
  | idleCounting
  | shuttingDown
deriving DecidableEq

/-- Modelled from the spec: the watchdog loop state — the control state,
the minutes elapsed since start (one poll per minute), and the idle
timer counting zero-connection minutes. -/
structure WatchdogM where
  state : WatchdogState
  minutesElapsed : Nat
  idleTimer : Nat
deriving DecidableEq

/-- Modelled from the spec: at start the watchdog enters
WAITING_FOR_PLAYERS with both counters at zero. -/
def watchdogStart : WatchdogM :=
  { state := WatchdogState.waitingForPlayers, minutesElapsed := 0, idleTimer := 0 }

/-- Modelled from the spec: one poll of the watchdog loop. A poll with
at least one connection moves to ACTIVE and resets the idle timer; a
zero-connection poll inside the startup grace window is suppressed; a
zero-connection poll after the grace window increments the idle timer
and moves to SHUTTING_DOWN once the timer reaches the shutdown
threshold. Once SHUTTING_DOWN is reached the process terminates. -/
def watchdogStep (startupMin shutdownMin : Nat) (s : WatchdogM)
    (connections : Nat) : WatchdogM :=
  if s.state = WatchdogState.shuttingDown then s
  else
    let m := s.minutesElapsed + 1
    if 1 ≤ connections then
      { state := WatchdogState.active, minutesElapsed := m, idleTimer := 0 }
    else if m < startupMin then
      { state := WatchdogState.waitingForPlayers, minutesElapsed := m, idleTimer := 0 }
    else
      let t := s.idleTimer + 1
      if shutdownMin ≤ t then
        { state := WatchdogState.shuttingDown, minutesElapsed := m, idleTimer := t }
      else
        { state := WatchdogState.idleCounting, minutesElapsed := m, idleTimer := t }

/-- Modelled from the spec: the watchdog observing a finite sequence of
poll results (connection counts), starting fresh. -/
def watchdogRun (startupMin shutdownMin : Nat) (polls : List Nat) : WatchdogM :=
  polls.foldl (watchdogStep startupMin shutdownMin) watchdogStart

/-- A concrete configuration used for concrete evaluations. -/
def cfg0 : StackConfig :=
  { domainName := "example.com"
    subdomainPart := "mc"
    serverRegion := "us-west-2"
    minecraftEdition := "java"
    shutdownMinutes := "30"
    startupMinutes := "10"
    useFargateSpot := true
    taskCpu := 8192
    taskMemory := 2048
    vpcId := ""
    minecraftImageEnv := [("EULA", "TRUE")]
    snsEmailAddress := ""
    twilio := { phoneFrom := "", phoneTo := "", accountId := "", authCode := "" }
    clusterName := "minecraft-server-mc"
    serviceName := "minecraft-server"
    serverContainerName := "minecraft-server"
    ecsVolumeName := "minecraft-server-mc-data"
    debug := false }

/-- Concrete deploy-time tokens used for concrete evaluations. -/
def tok0 : SynthTokens :=
  { fileSystemArn := "arn:aws:elasticfilesystem:fs-1"
    serviceArn := "arn:aws:ecs:service-1"
    taskArnPattern := "arn:aws:ecs:task-1"
    hostedZoneId := "Z123"
    snsTopicArnToken := "arn:aws:sns:topic-1" }

/-- Concrete primitives whose JSON parser accepts every string as the
empty record. -/
def jsPrimsOk : JsPrims :=
  { parseJson := fun _ => some []
    toNumber := fun _ => 0
    stringAsBoolean := fun _ => false }

/-- Concrete primitives whose JSON parser accepts exactly the string ok
and rejects everything else, including the empty string. -/
def jsPrimsSel : JsPrims :=
  { parseJson := fun s => if s = "ok" then some [("A", "B")] else none
    toNumber := fun _ => 0
    stringAsBoolean := fun _ => false }

/-- A process environment with every variable undefined. -/
def envEmpty : Env := fun _ => none

/-- A process environment defining only the minecraft image JSON, with
the value ok. -/
def envJsonOk : Env :=
  fun k => if k = "MINECRAFT_IMAGE_ENV_VARS_JSON" then some "ok" else none

/-- A process environment setting USE_FARGATE_SPOT to the string false
and the image JSON to ok. -/
def envSpotFalse : Env :=
  fun k =>
    if k = "USE_FARGATE_SPOT" then some "false"
    else if k = "MINECRAFT_IMAGE_ENV_VARS_JSON" then some "ok" else none

/-- The configuration that resolveConfig produces under jsPrimsOk and
the empty environment (with cfg0 as an unreachable fallback). -/
def cfgDefaults : StackConfig :=
  match resolveConfig jsPrimsOk envEmpty with
  | Except.ok c => c
  | Except.error _ => cfg0

/-- The configuration that resolveConfig produces under jsPrimsSel and
envSpotFalse (with cfg0 as an unreachable fallback). -/
def cfgSpotFalse : StackConfig :=
  match resolveConfig jsPrimsSel envSpotFalse with
  | Except.ok c => c
  | Except.error _ => cfg0

/-- A successful resolveConfig fixes the grace, shutdown and Fargate
Spot fields to the expressions of the source. -/
theorem resolveConfig_ok_fields (p : JsPrims) (env : Env) (config : StackConfig)
    (h : resolveConfig p env = Except.ok config) :
    config.startupMinutes = envOr env "STARTUP_MINUTES" "10" ∧
    config.shutdownMinutes = envOr env "SHUTDOWN_MINUTES" "30" ∧
    config.useFargateSpot = (p.stringAsBoolean (env "USE_FARGATE_SPOT") || true) := by
  unfold resolveConfig at h
  split at h
  · simp at h
  · injection h with h
    subst h
    exact ⟨rfl, rfl, rfl⟩

/-- One watchdog poll advances the elapsed-minutes counter by at most
one. -/
theorem watchdogStep_minutesElapsed_le (a b : Nat) (s : WatchdogM) (c : Nat) :
    (watchdogStep a b s c).minutesElapsed ≤ s.minutesElapsed + 1 := by
  simp only [watchdogStep]
  repeat' split
  all_goals simp

/-- One watchdog poll preserves the invariant that SHUTTING_DOWN is
reached only once at least the startup grace minutes have elapsed. -/
theorem watchdogStep_shutdown_grace (a b : Nat) (s : WatchdogM) (c : Nat)
    (h : s.state = WatchdogState.shuttingDown → a ≤ s.minutesElapsed) :
    (watchdogStep a b s c).state = WatchdogState.shuttingDown →
      a ≤ (watchdogStep a b s c).minutesElapsed := by
  simp only [watchdogStep]
  split
  · exact h
  · split
    · intro hst; simp at hst
    · split
      · intro hst; simp at hst
      · split
        · intro _; simp; omega
        · intro hst; simp at hst

/-- Folding the watchdog step over any poll sequence preserves the
grace invariant and bounds the elapsed minutes by the number of polls. -/
theorem watchdog_foldl_grace (a b : Nat) (polls : List Nat) :
    ∀ s : WatchdogM,
      (s.state = WatchdogState.shuttingDown → a ≤ s.minutesElapsed) →
      ((polls.foldl (watchdogStep a b) s).state = WatchdogState.shuttingDown →
        a ≤ (polls.foldl (watchdogStep a b) s).minutesElapsed) ∧
      (polls.foldl (watchdogStep a b) s).minutesElapsed ≤ s.minutesElapsed + polls.length := by
  induction polls with
  | nil => intro s hs; exact ⟨hs, by simp⟩
  | cons c rest ih =>
    intro s hs
    have h1 := watchdogStep_shutdown_grace a b s c hs
    have h2 := watchdogStep_minutesElapsed_le a b s c
    have h3 := ih (watchdogStep a b s c) h1
    refine ⟨h3.1, ?_⟩
    have h4 := h3.2
    simp only [List.foldl_cons, List.length_cons]
    omega

/-- C1 (counterexample): in the synthesized stack the claim fails — the
ECS task role, under which the watchdog runs, is attached a policy
carrying route53:ChangeResourceRecordSets, so DNS mutation is not held
by the launcher alone. -/
theorem task_role_holds_dns_change : ¬ dnsMutationOnlyByLauncher (mkMinecraftStack cfg0 tok0) := by
  intro h
  exact h ("IamRoute53Policy", "TaskRole") (by simp [mkMinecraftStack]) (by simp)
    (by simp [policyActions, mkMinecraftStack, List.lookup])

/-- C1 (amended): iamRoute53Policy, which allows
route53:ChangeResourceRecordSets on the hosted zone, is attached to the
ECS task role; no policy attached to the launcher lambda role carries
that action. -/
theorem route53_change_attached_to_task_role (config : StackConfig) (tok : SynthTokens) :
    ("IamRoute53Policy", "TaskRole") ∈ (mkMinecraftStack config tok).rolePolicyAttachments ∧
    "route53:ChangeResourceRecordSets" ∈ policyActions (mkMinecraftStack config tok) "IamRoute53Policy" ∧
    ∀ pr ∈ (mkMinecraftStack config tok).rolePolicyAttachments,
      pr.2 = "LauncherLambdaRole" →
        "route53:ChangeResourceRecordSets" ∉ policyActions (mkMinecraftStack config tok) pr.1 := by
  refine ⟨by simp [mkMinecraftStack], by simp [policyActions, mkMinecraftStack, List.lookup], ?_⟩
  intro pr hpr
  simp only [mkMinecraftStack, List.mem_cons, List.not_mem_nil, or_false] at hpr
  rcases hpr with h | h | h | h <;> subst h <;>
    simp [policyActions, mkMinecraftStack, List.lookup]

/-- C2: the Fargate service for the game server is declared with zero
desired task instances, for every configuration. -/
theorem fargate_service_desired_count_zero (config : StackConfig) (tok : SynthTokens) :
    (mkMinecraftStack config tok).desiredCount = 0 := rfl

/-- C3: for every sequence of poll results shorter than the startup
grace window, the watchdog never reaches SHUTTING_DOWN. -/
theorem watchdog_no_shutdown_in_grace (startupMin shutdownMin : Nat) (polls : List Nat)
    (h : polls.length < startupMin) :
    (watchdogRun startupMin shutdownMin polls).state ≠ WatchdogState.shuttingDown := by
  intro hsd
  have hinv := watchdog_foldl_grace startupMin shutdownMin polls watchdogStart
    (by intro hx; simp [watchdogStart] at hx)
  have h1 := hinv.1 hsd
  have h2 := hinv.2
  simp only [watchdogStart] at h1 h2
  omega

/-- C3 (witness): five zero-connection polls inside a ten-minute grace
window leave the watchdog short of SHUTTING_DOWN even with a
one-minute shutdown threshold. -/
theorem watchdog_no_shutdown_in_grace_witness :
    List.length [0, 0, 0, 0, 0] < 10 ∧
    (watchdogRun 10 1 [0, 0, 0, 0, 0]).state ≠ WatchdogState.shuttingDown :=
  ⟨by decide, watchdog_no_shutdown_in_grace 10 1 [0, 0, 0, 0, 0] (by decide)⟩

/-- C4: with STARTUP_MINUTES and SHUTDOWN_MINUTES unset, the resolved
configuration defaults to ten grace minutes and thirty shutdown
minutes, and the watchdog container receives exactly those values. -/
theorem default_startup_shutdown_minutes (p : JsPrims) (env : Env) (config : StackConfig)
    (tok : SynthTokens) (hok : resolveConfig p env = Except.ok config)
    (hs : env "STARTUP_MINUTES" = none) (hd : env "SHUTDOWN_MINUTES" = none) :
    config.startupMinutes = "10" ∧ config.shutdownMinutes = "30" ∧
    (mkMinecraftStack config tok).watchdogEnvironment.lookup "STARTUPMIN" = some "10" ∧
    (mkMinecraftStack config tok).watchdogEnvironment.lookup "SHUTDOWNMIN" = some "30" := by
  obtain ⟨h1, h2, -⟩ := resolveConfig_ok_fields p env config hok
  have e1 : config.startupMinutes = "10" := by rw [h1]; simp [envOr, hs]
  have e2 : config.shutdownMinutes = "30" := by rw [h2]; simp [envOr, hd]
  have l1 : (mkMinecraftStack config tok).watchdogEnvironment.lookup "STARTUPMIN" =
      some config.startupMinutes := rfl
  have l2 : (mkMinecraftStack config tok).watchdogEnvironment.lookup "SHUTDOWNMIN" =
      some config.shutdownMinutes := rfl
  exact ⟨e1, e2, by rw [l1, e1], by rw [l2, e2]⟩

/-- C4 (witness): the defaults under the empty environment. -/
theorem default_startup_shutdown_minutes_witness :
    cfgDefaults.startupMinutes = "10" ∧ cfgDefaults.shutdownMinutes = "30" ∧
    (mkMinecraftStack cfgDefaults tok0).watchdogEnvironment.lookup "STARTUPMIN" = some "10" ∧
    (mkMinecraftStack cfgDefaults tok0).watchdogEnvironment.lookup "SHUTDOWNMIN" = some "30" :=
  default_startup_shutdown_minutes jsPrimsOk envEmpty cfgDefaults tok0 rfl rfl rfl

/-- C5: every successfully resolved configuration has useFargateSpot
true (the disjunction with true is constant), so the service capacity
provider is always FARGATE_SPOT. -/
theorem use_fargate_spot_always (p : JsPrims) (env : Env) (config : StackConfig)
    (tok : SynthTokens) (hok : resolveConfig p env = Except.ok config) :
    config.useFargateSpot = true ∧
    (mkMinecraftStack config tok).capacityProvider = "FARGATE_SPOT" := by
  obtain ⟨-, -, h3⟩ := resolveConfig_ok_fields p env config hok
  have e : config.useFargateSpot = true := by rw [h3]; simp
  refine ⟨e, ?_⟩
  show (if config.useFargateSpot then "FARGATE_SPOT" else "FARGATE") = "FARGATE_SPOT"
  rw [e]
  simp

/-- C5 (witness): even with USE_FARGATE_SPOT set to false (and the
boolean utility reading it as false), the provider is FARGATE_SPOT. -/
theorem use_fargate_spot_always_witness :
    cfgSpotFalse.useFargateSpot = true ∧
    (mkMinecraftStack cfgSpotFalse tok0).capacityProvider = "FARGATE_SPOT" :=
  use_fargate_spot_always jsPrimsSel envSpotFalse cfgSpotFalse tok0 rfl

/-- C6: an SNS topic with an email subscription for the configured
recipient is provisioned exactly when snsEmailAddress is non-empty;
otherwise the watchdog receives an empty SNSTOPIC. -/
theorem sns_topic_iff_email_configured (config : StackConfig) (tok : SynthTokens) :
    ((mkMinecraftStack config tok).snsTopicCreated = true ↔ config.snsEmailAddress ≠ "") ∧
    ((mkMinecraftStack config tok).emailSubscriptionEndpoint =
      if config.snsEmailAddress = "" then none else some config.snsEmailAddress) ∧
    (config.snsEmailAddress = "" →
      (mkMinecraftStack config tok).watchdogEnvironment.lookup "SNSTOPIC" = some "") := by
  refine ⟨by simp [mkMinecraftStack], rfl, ?_⟩
  intro h
  have l : (mkMinecraftStack config tok).watchdogEnvironment.lookup "SNSTOPIC" =
      some (if config.snsEmailAddress = "" then "" else tok.snsTopicArnToken) := rfl
  rw [l]
  simp [h]

/-- C7: the watchdog container environment carries the startup and
shutdown minutes and the notification recipient identifiers, the task
definition carries the configured cpu and memory, and the debug flag
decides logging on both containers. -/
theorem control_loop_configuration_surface (config : StackConfig) (tok : SynthTokens) :
    (mkMinecraftStack config tok).watchdogEnvironment.lookup "STARTUPMIN" =
      some config.startupMinutes ∧
    (mkMinecraftStack config tok).watchdogEnvironment.lookup "SHUTDOWNMIN" =
      some config.shutdownMinutes ∧
    (mkMinecraftStack config tok).watchdogEnvironment.lookup "SNSTOPIC" =
      some (if config.snsEmailAddress = "" then "" else tok.snsTopicArnToken) ∧
    (mkMinecraftStack config tok).watchdogEnvironment.lookup "TWILIOFROM" =
      some config.twilio.phoneFrom ∧
    (mkMinecraftStack config tok).watchdogEnvironment.lookup "TWILIOTO" =
      some config.twilio.phoneTo ∧
    (mkMinecraftStack config tok).watchdogEnvironment.lookup "TWILIOAID" =
      some config.twilio.accountId ∧
    (mkMinecraftStack config tok).watchdogEnvironment.lookup "TWILIOAUTH" =
      some config.twilio.authCode ∧
    (mkMinecraftStack config tok).taskCpu = config.taskCpu ∧
    (mkMinecraftStack config tok).taskMemory = config.taskMemory ∧
    (mkMinecraftStack config tok).serverContainerLogging = config.debug ∧
    (mkMinecraftStack config tok).watchdogLogging = config.debug :=
  ⟨rfl, rfl, rfl, rfl, rfl, rfl, rfl, rfl, rfl, rfl, rfl⟩

/-- C8: the entrypoint validation throws exactly when domainName is
empty; a missing subdomain part or server region alone never raises,
since all three checks test domainName. -/
theorem entrypoint_throws_iff_domain_name_empty (config : StackConfig) :
    ((∃ e, appValidate config = Except.error e) ↔ config.domainName = "") ∧
    (config.domainName ≠ "" → appValidate config = Except.ok ()) := by
  by_cases h : config.domainName = "" <;> simp [appValidate, h]

/-- C9: resolveConfig throws the fixed error when the image JSON
variable is unset, empty, or rejected by the JSON parser (the empty
string is not valid JSON); on a parsed object it returns normally with
minecraftImageEnv the parsed object spread over the EULA default. -/
theorem minecraft_image_env_resolution (p : JsPrims) (env : Env)
    (hempty : p.parseJson "" = none) :
    (env "MINECRAFT_IMAGE_ENV_VARS_JSON" = none →
      resolveConfig p env =
        Except.error "Unable to resolve .env value for MINECRAFT_IMAGE_ENV_VARS_JSON.") ∧
    (env "MINECRAFT_IMAGE_ENV_VARS_JSON" = some "" →
      resolveConfig p env =
        Except.error "Unable to resolve .env value for MINECRAFT_IMAGE_ENV_VARS_JSON.") ∧
    (p.parseJson ((env "MINECRAFT_IMAGE_ENV_VARS_JSON").getD "") = none →
      resolveConfig p env =
        Except.error "Unable to resolve .env value for MINECRAFT_IMAGE_ENV_VARS_JSON.") ∧
    ∀ o, p.parseJson ((env "MINECRAFT_IMAGE_ENV_VARS_JSON").getD "") = some o →
      minecraftImageEnvOf (resolveConfig p env) = some (jsMerge [("EULA", "TRUE")] o) := by
  have key : p.parseJson ((env "MINECRAFT_IMAGE_ENV_VARS_JSON").getD "") = none →
      resolveConfig p env =
        Except.error "Unable to resolve .env value for MINECRAFT_IMAGE_ENV_VARS_JSON." := by
    intro hnone
    unfold resolveConfig resolveMinecraftEnvVars
    simp [hnone]
  refine ⟨?_, ?_, key, ?_⟩
  · intro h; exact key (by rw [h]; exact hempty)
  · intro h; exact key (by rw [h]; exact hempty)
  · intro o ho
    unfold minecraftImageEnvOf resolveConfig resolveMinecraftEnvVars
    simp [ho]

/-- C9 (witness): concrete error on the empty environment and concrete
merge on a parsed object. -/
theorem minecraft_image_env_resolution_witness :
    resolveConfig jsPrimsSel envEmpty =
      Except.error "Unable to resolve .env value for MINECRAFT_IMAGE_ENV_VARS_JSON." ∧
    minecraftImageEnvOf (resolveConfig jsPrimsSel envJsonOk) =
      some (jsMerge [("EULA", "TRUE")] [("A", "B")]) :=
  ⟨(minecraft_image_env_resolution jsPrimsSel envEmpty rfl).1 rfl,
   (minecraft_image_env_resolution jsPrimsSel envJsonOk rfl).2.2.2 [("A", "B")] rfl⟩

/-- C10: the domain stack is declared in the fixed region, the server
stack in the configured region, and the server stack depends on the
domain stack. -/
theorem domain_stack_fixed_region_and_dependency (config : StackConfig) :
    (mkCdkApp config).domainStack.region = DOMAIN_STACK_REGION ∧
    (mkCdkApp config).minecraftStack.region = config.serverRegion ∧
    ((mkCdkApp config).minecraftStack.stackId, (mkCdkApp config).domainStack.stackId) ∈
      (mkCdkApp config).dependencies := by
  refine ⟨rfl, rfl, ?_⟩
  simp [mkCdkApp]

end MinecraftOnDemand
